import Mathlib

/-!
Verification of the vectorized table-scan layer
(`src/execution/sql/table_vector_iterator.cpp`, namespace
`terrier::execution::sql`).

The shallow embedding models the iterator's observable state and the
storage / catalog / arena collaborators that the translation unit calls
into.  Machine integers are modelled as `Nat` with explicit `% 2^32`
(for `uint32_t` parameters) and `% 2^16` (for the `uint16_t` field of
`ScanTask`) applied where the C++ performs an implicit conversion.
-/

namespace Terrier

/-- Modelled from the spec: a table handle is an opaque reference to a
block-organized relation exposing its block list and its full natural
column-identifier set (`storage::SqlTable` is not under `src/`).  Each
block is modelled by its visible row count. -/
structure SqlTable where
  blocks : List Nat
  allColOids : List Nat
deriving DecidableEq

instance : Inhabited SqlTable := ⟨{ blocks := [], allColOids := [] }⟩

/-- Source: `table_->GetBlockListSize()` — the table's total block count. -/
def SqlTable.GetBlockListSize (t : SqlTable) : Nat :=
  t.blocks.length

/-- Source: `table_->GetAllColOid(&col_oids_)` — the full natural column set
in storage order. -/
def SqlTable.GetAllColOid (t : SqlTable) : List Nat :=
  t.allColOids

/-- Modelled from the spec: "ability to produce a cursor positioned at a
given block index (including one-past-the-last block)".
`DataTable::beginAt` is not under `src/`; the cursor is modelled as a block
index clamped to the number of blocks. -/
def SqlTable.beginAt (t : SqlTable) (i : Nat) : Nat :=
  min i t.blocks.length

/-- Modelled from the spec: the end cursor for a half-open block range,
clamped to the number of blocks (`DataTable::endAt` is not under `src/`). -/
def SqlTable.endAt (t : SqlTable) (i : Nat) : Nat :=
  min i t.blocks.length

/-- Modelled from the spec: "fills the buffer with the next run of matching
rows and advances the cursor" (`SqlTable::RangeScan` is not under `src/`).
Modelled at block granularity: one fill consumes the block at the cursor,
returning the rows produced and the advanced cursor. -/
def SqlTable.RangeScan (t : SqlTable) (iter : Nat) : Nat × Nat :=
  (t.blocks.getD iter 0, iter + 1)

/-- Modelled from the spec: the catalog collaborator resolving a table
identifier to a table handle or a not-found indication
(`exec_ctx->GetAccessor()` is not under `src/`).  Modelled as a finite map. -/
structure CatalogAccessor where
  tables : List (Nat × SqlTable)
deriving DecidableEq

/-- Source: `GetAccessor()->GetTable(oid)` — lookup, `none` when the
identifier does not resolve. -/
def CatalogAccessor.GetTable (acc : CatalogAccessor) (oid : Nat) : Option SqlTable :=
  (acc.tables.find? (fun p => p.fst == oid)).map (fun p => p.snd)

/-- Arena events of the memory-pool collaborator: `AllocateAligned` in
`Init()` and `Deallocate` in the destructor. -/
inductive PoolEvent where
  | alloc
  | dealloc
deriving DecidableEq

/-- The observable state of `TableVectorIterator`.  `pci_set` records that
`pci_.SetProjectedColumn(projected_columns_)` has bound the row cursor to
the refreshed buffer, `pci_rows` the rows the buffer currently holds, and
`pool_events` the trace of arena allocate/deallocate calls made on behalf
of this instance. -/
structure TableVectorIterator where
  accessor : CatalogAccessor
  table_oid : Nat
  col_oids : List Nat
  start_block_idx : Nat
  end_block_idx : Nat
  initialized : Bool
  table : Option SqlTable
  iter : Nat
  iter_end : Nat
  pci_set : Bool
  pci_rows : Nat
  pool_events : List PoolEvent
deriving DecidableEq

/-- Source: the six-argument constructor
`TableVectorIterator(exec_ctx, table_oid, col_oids, num_oids, start_block_idx,
end_block_idx)`.  The `uint32_t` parameters are reduced `% 2^32`. -/
def TableVectorIterator.create (acc : CatalogAccessor) (table_oid : Nat)
    (col_oids : List Nat) (sb eb : Nat) : TableVectorIterator :=
  { accessor := acc
    table_oid := table_oid % 2 ^ 32
    col_oids := col_oids
    start_block_idx := sb % 2 ^ 32
    end_block_idx := eb % 2 ^ 32
    initialized := false
    table := none
    iter := 0
    iter_end := 0
    pci_set := false
    pci_rows := 0
    pool_events := [] }

/-- Source: the four-argument constructor, delegating with the block range
`[0, std::numeric_limits of uint32_t :: max())`. -/
def TableVectorIterator.createFull (acc : CatalogAccessor) (table_oid : Nat)
    (col_oids : List Nat) : TableVectorIterator :=
  TableVectorIterator.create acc table_oid col_oids 0 (2 ^ 32 - 1)

/-- Source: `TableVectorIterator::Init`.  `none` models the
`TERRIER_ASSERT(table_ != nullptr, ...)` firing (no normal return); on the
normal path the column set is resolved (full natural set if the request
list is empty), the batch buffer is allocated from the arena, and the
cursor pair is positioned at `(start_block_idx, end_block_idx)`.  The
returned `Bool` is the C++ return value. -/
def TableVectorIterator.Init (s : TableVectorIterator) :
    Option (TableVectorIterator × Bool) :=
  match s.accessor.GetTable s.table_oid with
  | none => none
  | some t =>
      some ({ s with
                table := some t
                col_oids := if s.col_oids.isEmpty then t.GetAllColOid else s.col_oids
                pool_events := s.pool_events ++ [PoolEvent.alloc]
                initialized := true
                iter := t.beginAt s.start_block_idx
                iter_end := t.endAt s.end_block_idx }, true)

/-- Source: `TableVectorIterator::Advance` — `false` if `Init()` never
completed or the cursor pair has converged; otherwise `RangeScan` refills
the buffer starting at the current cursor and advances it, and the row
cursor is rebound to the refreshed buffer. -/
def TableVectorIterator.Advance (s : TableVectorIterator) :
    TableVectorIterator × Bool :=
  if s.initialized = false then (s, false)
  else if s.iter = s.iter_end then (s, false)
  else
    let rsc := (s.table.getD default).RangeScan s.iter
    ({ s with iter := rsc.snd, pci_set := true, pci_rows := rsc.fst }, true)

/-- Source: `TableVectorIterator::Reset` — no-op unless initialized;
repositions the cursor at `beginAt(start_block_idx_)`. -/
def TableVectorIterator.Reset (s : TableVectorIterator) : TableVectorIterator :=
  if s.initialized = false then s
  else { s with iter := (s.table.getD default).beginAt s.start_block_idx }

/-- Source: `TableVectorIterator::~TableVectorIterator` — unconditionally
releases the batch buffer back to the arena, yielding the final arena
event trace of the instance. -/
def TableVectorIterator.destruct (s : TableVectorIterator) : List PoolEvent :=
  s.pool_events ++ [PoolEvent.dealloc]

/-- The canonical scan loop a caller drives (as in the repository's tests
and the spec's scan callback): call `Advance()` until it returns `false`,
summing the rows seen through the row cursor.  `fuel` bounds the number of
`Advance()` calls; every use in this file supplies enough fuel for the
loop to reach its `false` return. -/
def scanRows : Nat → TableVectorIterator → Nat
  | 0, _ => 0
  | fuel + 1, s =>
      let r := s.Advance
      if r.snd then r.fst.pci_rows + scanRows fuel r.fst else 0

/-- Outcome of one `ScanTask` invocation on a partition: `fatalAssert` when
`Init()` hit the table-must-exist assertion (no normal return), `skipped`
when `Init()` returned `false` and the partition was silently skipped, and
`scanned n` when the scan callback ran and observed `n` rows. -/
inductive TaskOutcome where
  | fatalAssert
  | skipped
  | scanned (rows : Nat)
deriving DecidableEq

/-- Source: class `ScanTask` — the `uint16_t table_id_` field truncates the
`uint32_t` table identifier handed to the constructor (`% 2^16`).  The
query state, thread-state container and scan-callback members carry no
observable state of their own here; the callback is modelled as the
row-counting loop of the spec's parallel-equivalence property. -/
structure ScanTask where
  accessor : CatalogAccessor
  table_id : Nat
deriving DecidableEq

/-- Source: `ScanTask`'s constructor storing the identifier into the
16-bit field. -/
def ScanTask.make (acc : CatalogAccessor) (table_oid : Nat) : ScanTask :=
  { accessor := acc, table_id := table_oid % 2 ^ 16 }

/-- Source: `ScanTask::operator()` line constructing
`TableVectorIterator iter(exec_ctx_, table_id_, {}, 0, range.begin(), range.end())`
for one block partition `[a, b)`. -/
def ScanTask.makeIter (task : ScanTask) (a b : Nat) : TableVectorIterator :=
  TableVectorIterator.create task.accessor task.table_id [] a b

/-- Source: the body of `ScanTask::operator()` — construct the private
iterator, call `Init()` (returning early, the partition skipped, if it
fails), then run the caller-supplied scan callback, which drives the
`Advance()` loop accumulating rows into the worker's private counter. -/
def ScanTask.run (task : ScanTask) (a b : Nat) : TaskOutcome :=
  match (task.makeIter a b).Init with
  | none => TaskOutcome.fatalAssert
  | some r =>
      if r.snd then
        TaskOutcome.scanned
          (scanRows ((r.fst.table.getD default).blocks.length + 1) r.fst)
      else TaskOutcome.skipped

/-- The partitions of a half-open block range `[a, b)` that the
two-argument `tbb::parallel_for(blocked_range(a, b, g), body)` may execute
the body on, listed in range order.  `blocked_range` is divisible only
while its size exceeds the grain `g`, and a divisible range splits at its
midpoint `a + (b - a) / 2`; the default `auto_partitioner` may stop
splitting at any point (so a chunk may be larger than `g`), hence the
semantics is the set of all split trees: every node may be a leaf, and an
inner node must be divisible. -/
inductive IsParallelForPartition (g : Nat) : Nat → Nat → List (Nat × Nat) → Prop where
  | leaf (a b : Nat) : IsParallelForPartition g a b [(a, b)]
  | split (a b : Nat) (l r : List (Nat × Nat)) :
      g < b - a →
      IsParallelForPartition g a (a + (b - a) / 2) l →
      IsParallelForPartition g (a + (b - a) / 2) b r →
      IsParallelForPartition g a b (l ++ r)

/-- One concrete schedule of `tbb::parallel_for` on
`tbb::blocked_range(a, b, g)`: the maximal one, splitting every divisible
range at its midpoint all the way down to grain.  Used only to give
`ParallelScan` an executable task list; `blockedRangeSplit_isParallelForPartition`
shows it is a legal outcome of the nondeterministic semantics above.
`fuel` bounds the recursion depth; `blockedRangeSplit` supplies `b - a`,
which always suffices. -/
def blockedRangeSplitAux (g : Nat) : Nat → Nat → Nat → List (Nat × Nat)
  | 0, a, b => [(a, b)]
  | fuel + 1, a, b =>
      if g < b - a then
        blockedRangeSplitAux g fuel a (a + (b - a) / 2) ++
          blockedRangeSplitAux g fuel (a + (b - a) / 2) b
      else [(a, b)]

/-- The maximal-splitting schedule of `tbb::blocked_range(a, b, g)`, in
range order (one legal `tbb::parallel_for` outcome among those of
`IsParallelForPartition`). -/
def blockedRangeSplit (g a b : Nat) : List (Nat × Nat) :=
  blockedRangeSplitAux g (b - a) a b

/-- Source: `TableVectorIterator::ParallelScan` — resolve the table through
the catalog (failure returns `false` with no tasks submitted), partition
`[0, GetBlockListSize())` with `min_grain_size = 3`, and run one `ScanTask`
per partition; `tbb::parallel_for` runs nothing on an empty root range.
The returned list holds the per-task outcomes of the completed fork-join
round under the maximal-splitting schedule `blockedRangeSplit` (one legal
outcome of the scheduler's nondeterminism); the `Bool` is the C++ return
value and depends neither on the schedule nor on the task outcomes. -/
def TableVectorIterator.ParallelScan (acc : CatalogAccessor) (table_oid : Nat) :
    Bool × List TaskOutcome :=
  match acc.GetTable (table_oid % 2 ^ 32) with
  | none => (false, [])
  | some t =>
      let block_count := t.GetBlockListSize
      let task := ScanTask.make acc (table_oid % 2 ^ 32)
      (true,
        if block_count = 0 then []
        else (blockedRangeSplit 3 0 block_count).map (fun p => task.run p.fst p.snd))

/-- The caller's read-only fold over the workers' private counters after
the parallel pass (`ThreadStateContainer::ForEach` in the repository's
test): sum of the rows each task's counter accumulated. -/
def aggregateWorkerRows (outs : List TaskOutcome) : Nat :=
  (outs.map (fun o => match o with
    | TaskOutcome.scanned n => n
    | _ => 0)).sum

/-- Row count observed by a single sequential iterator over the whole
table (the four-argument constructor followed by `Init()` and the
`Advance()` loop); `none` when `Init()`'s assertion fires. -/
def seqScanRowCount (acc : CatalogAccessor) (oid : Nat) : Option Nat :=
  match (TableVectorIterator.createFull acc oid []).Init with
  | none => none
  | some r => some (scanRows ((r.fst.table.getD default).blocks.length + 1) r.fst)

/-- Decidable check that a list of half-open ranges is an ordered,
contiguous partition of `[lo, hi)`: each range starts where its
predecessor ended, the first starts at `lo`, and the last ends at `hi`. -/
def isOrderedPartition : Nat → Nat → List (Nat × Nat) → Bool
  | lo, hi, [] => lo == hi
  | lo, hi, p :: rest =>
      lo == p.fst && decide (p.fst ≤ p.snd) && isOrderedPartition p.snd hi rest

/-- A concrete two-block table used by the witness theorems. -/
def tblSample : SqlTable :=
  { blocks := [2, 3], allColOids := [7, 8] }

/-- A concrete catalog resolving identifier `1` to `tblSample`. -/
def accSample : CatalogAccessor :=
  { tables := [(1, tblSample)] }

/-- A catalog resolving nothing. -/
def accNone : CatalogAccessor :=
  { tables := [] }

/-- A fresh full-range iterator over `tblSample`. -/
def sampleIter : TableVectorIterator :=
  TableVectorIterator.createFull accSample 1 []

/-- The result of `Init()` on `sampleIter` (which succeeds). -/
def sampleInitPair : TableVectorIterator × Bool :=
  (sampleIter.Init).getD (sampleIter, false)

/-- A one-block table holding five rows, registered under identifier
`2^16`; identifier `0` resolves to an empty table.  Scan tasks spawned for
identifier `2^16` truncate it to `0` and scan the wrong table. -/
def tblFiveRows : SqlTable :=
  { blocks := [5], allColOids := [1] }

/-- An empty table (zero blocks). -/
def tblNoBlocks : SqlTable :=
  { blocks := [], allColOids := [1] }

/-- The catalog exhibiting the 16-bit truncation mismatch. -/
def accTruncated : CatalogAccessor :=
  { tables := [(65536, tblFiveRows), (0, tblNoBlocks)] }

theorem isOrderedPartition_append {l1 l2 : List (Nat × Nat)} :
    ∀ {lo mid hi : Nat}, isOrderedPartition lo mid l1 = true →
      isOrderedPartition mid hi l2 = true →
      isOrderedPartition lo hi (l1 ++ l2) = true := by
  induction l1 with
  | nil =>
      intro lo mid hi h1 h2
      simp only [isOrderedPartition, beq_iff_eq] at h1
      simpa [h1] using h2
  | cons p rest ih =>
      intro lo mid hi h1 h2
      simp only [isOrderedPartition, Bool.and_eq_true, beq_iff_eq,
        decide_eq_true_eq] at h1 ⊢
      exact ⟨h1.1, ih h1.2 h2⟩

theorem isOrderedPartition_le :
    ∀ {l : List (Nat × Nat)} {lo hi : Nat},
      isOrderedPartition lo hi l = true → lo ≤ hi := by
  intro l
  induction l with
  | nil =>
      intro lo hi h
      simp only [isOrderedPartition, beq_iff_eq] at h
      omega
  | cons p rest ih =>
      intro lo hi h
      simp only [isOrderedPartition, Bool.and_eq_true, beq_iff_eq,
        decide_eq_true_eq] at h
      have := ih h.2
      omega

theorem isOrderedPartition_mem_bounds :
    ∀ {l : List (Nat × Nat)} {lo hi : Nat},
      isOrderedPartition lo hi l = true →
      ∀ p ∈ l, lo ≤ p.fst ∧ p.fst ≤ p.snd ∧ p.snd ≤ hi := by
  intro l
  induction l with
  | nil => intro lo hi _ p hp; cases hp
  | cons q rest ih =>
      intro lo hi h p hp
      simp only [isOrderedPartition, Bool.and_eq_true, beq_iff_eq,
        decide_eq_true_eq] at h
      rcases List.mem_cons.mp hp with rfl | hp
      · exact ⟨le_of_eq h.1.1, h.1.2, isOrderedPartition_le h.2⟩
      · have hb := ih h.2 p hp
        exact ⟨by omega, hb.2.1, hb.2.2⟩

theorem isOrderedPartition_cover :
    ∀ {l : List (Nat × Nat)} {lo hi : Nat},
      isOrderedPartition lo hi l = true →
      ∀ x, lo ≤ x → x < hi → ∃ p ∈ l, p.fst ≤ x ∧ x < p.snd := by
  intro l
  induction l with
  | nil =>
      intro lo hi h x h1 h2
      simp only [isOrderedPartition, beq_iff_eq] at h
      omega
  | cons q rest ih =>
      intro lo hi h x h1 h2
      simp only [isOrderedPartition, Bool.and_eq_true, beq_iff_eq,
        decide_eq_true_eq] at h
      by_cases hx : x < q.snd
      · exact ⟨q, List.mem_cons_self q rest, by omega, hx⟩
      · obtain ⟨p, hp, hpx⟩ := ih h.2 x (by omega) h2
        exact ⟨p, List.mem_cons_of_mem q hp, hpx⟩

theorem isOrderedPartition_pairwise :
    ∀ {l : List (Nat × Nat)} {lo hi : Nat},
      isOrderedPartition lo hi l = true →
      l.Pairwise (fun p q => p.snd ≤ q.fst) := by
  intro l
  induction l with
  | nil => intro lo hi _; exact List.Pairwise.nil
  | cons q rest ih =>
      intro lo hi h
      simp only [isOrderedPartition, Bool.and_eq_true, beq_iff_eq,
        decide_eq_true_eq] at h
      exact List.Pairwise.cons
        (fun p hp => (isOrderedPartition_mem_bounds h.2 p hp).1) (ih h.2)

theorem isParallelForPartition_ordered {g : Nat} :
    ∀ {a b : Nat} {parts : List (Nat × Nat)},
      IsParallelForPartition g a b parts → a ≤ b →
      isOrderedPartition a b parts = true := by
  intro a b parts hp
  induction hp with
  | leaf a b =>
      intro hab
      simp [isOrderedPartition, hab]
  | split a b l r hdiv hl hr ihl ihr =>
      intro hab
      exact isOrderedPartition_append (ihl (by omega)) (ihr (by omega))

theorem blockedRangeSplitAux_isParallelForPartition (g : Nat) :
    ∀ fuel a b, IsParallelForPartition g a b (blockedRangeSplitAux g fuel a b) := by
  intro fuel
  induction fuel with
  | zero => intro a b; exact IsParallelForPartition.leaf a b
  | succ n ih =>
      intro a b
      by_cases h : g < b - a
      · simp only [blockedRangeSplitAux, if_pos h]
        exact IsParallelForPartition.split a b _ _ h (ih a _) (ih _ b)
      · simp only [blockedRangeSplitAux, if_neg h]
        exact IsParallelForPartition.leaf a b

theorem blockedRangeSplit_isParallelForPartition (g a b : Nat) :
    IsParallelForPartition g a b (blockedRangeSplit g a b) :=
  blockedRangeSplitAux_isParallelForPartition g (b - a) a b

theorem Init_eq (s : TableVectorIterator) (t : SqlTable)
    (ht : s.accessor.GetTable s.table_oid = some t) :
    s.Init = some ({ s with
        table := some t
        col_oids := if s.col_oids.isEmpty then t.GetAllColOid else s.col_oids
        pool_events := s.pool_events ++ [PoolEvent.alloc]
        initialized := true
        iter := t.beginAt s.start_block_idx
        iter_end := t.endAt s.end_block_idx }, true) := by
  unfold TableVectorIterator.Init
  rw [ht]

theorem Advance_at_end (s : TableVectorIterator) (h1 : s.initialized = true)
    (h2 : s.iter = s.iter_end) : s.Advance = (s, false) := by
  unfold TableVectorIterator.Advance
  simp [h1, h2]

theorem scanRows_at_end (s : TableVectorIterator) (h : s.Advance = (s, false)) :
    ∀ fuel, scanRows fuel s = 0 := by
  intro fuel
  cases fuel with
  | zero => rfl
  | succ n => simp [scanRows, h]

theorem Init_cases (s : TableVectorIterator) (r : TableVectorIterator × Bool)
    (h : s.Init = some r) :
    ∃ t, s.accessor.GetTable s.table_oid = some t ∧
      r = ({ s with
        table := some t
        col_oids := if s.col_oids.isEmpty then t.GetAllColOid else s.col_oids
        pool_events := s.pool_events ++ [PoolEvent.alloc]
        initialized := true
        iter := t.beginAt s.start_block_idx
        iter_end := t.endAt s.end_block_idx }, true) := by
  unfold TableVectorIterator.Init at h
  cases hG : s.accessor.GetTable s.table_oid with
  | none => rw [hG] at h; exact Option.noConfusion h
  | some t => rw [hG] at h; cases h; exact ⟨t, rfl, rfl⟩

/-- Claim C1: `Advance()` returns "no more rows" (`false`) exactly when
`Init()` was never completed or the current cursor equals the end cursor;
otherwise it asks the storage collaborator to fill the batch buffer
starting at the current cursor, advances the cursor, rebinds the row
cursor to the refreshed buffer, and returns "rows available" (`true`). -/
theorem advance_contract (s : TableVectorIterator) :
    ((s.Advance).snd = false ↔ (s.initialized = false ∨ s.iter = s.iter_end))
  ∧ (s.initialized = true → s.iter ≠ s.iter_end →
        (s.Advance).snd = true
      ∧ (s.Advance).fst.pci_rows = ((s.table.getD default).RangeScan s.iter).fst
      ∧ (s.Advance).fst.iter = ((s.table.getD default).RangeScan s.iter).snd
      ∧ (s.Advance).fst.pci_set = true) := by
  constructor
  · unfold TableVectorIterator.Advance
    by_cases h1 : s.initialized = false
    · simp [h1]
    · by_cases h2 : s.iter = s.iter_end
      · simp [h1, h2]
      · simp [h1, h2]
  · intro h1 h2
    unfold TableVectorIterator.Advance
    simp [h1, h2]

theorem advance_contract_witness :
    (sampleInitPair.fst.Advance).snd = true
  ∧ (sampleInitPair.fst.Advance).fst.pci_rows =
      ((sampleInitPair.fst.table.getD default).RangeScan sampleInitPair.fst.iter).fst
  ∧ (sampleInitPair.fst.Advance).fst.iter =
      ((sampleInitPair.fst.table.getD default).RangeScan sampleInitPair.fst.iter).snd
  ∧ (sampleInitPair.fst.Advance).fst.pci_set = true :=
  (advance_contract sampleInitPair.fst).2 (by decide) (by decide)

/-- Claim C2 (code bug): the claimed parallel-equivalence fails because
`ScanTask` truncates the 32-bit identifier to 16 bits.  At the concrete
catalog `accTruncated`, table `2^16` holds five rows, but each scan task
resolves identifier `0` (an empty table), so the aggregate of the
workers' private counters is `0` while the sequential scan counts `5`. -/
theorem parallel_scan_truncation_mismatch :
    aggregateWorkerRows (TableVectorIterator.ParallelScan accTruncated 65536).snd = 0
  ∧ seqScanRowCount accTruncated 65536 = some 5 := by
  decide

/-- Counterexample to claim C3 as stated: with block count `4` and grain
`3`, the root range is divisible (`4 > 3`), so the scheduler may split it
once at the midpoint, executing the partition `[(0, 2), (2, 4)]` whose
first (non-final) range has length `2 < 3`. -/
theorem partitioner_grain_floor_counterexample :
    IsParallelForPartition 3 0 4 [(0, 2), (2, 4)]
  ∧ ¬ (3 ≤ (2 : Nat) - 0) :=
  ⟨IsParallelForPartition.split 0 4 [(0, 2)] [(2, 4)] (by decide)
      (IsParallelForPartition.leaf 0 2) (IsParallelForPartition.leaf 2 4),
    by decide⟩

/-- Claim C3, amended: for every block count `B` and grain size `g`, every
partitioning `tbb::parallel_for` may execute on `blocked_range(0, B, g)`
is an ordered sequence of pairwise-disjoint half-open ranges whose union
is exactly `[0, B)` (the per-range grain floor of the original claim does
not hold). -/
theorem partitioner_disjoint_cover (B g : Nat) (parts : List (Nat × Nat))
    (hp : IsParallelForPartition g 0 B parts) :
    isOrderedPartition 0 B parts = true
  ∧ (∀ x, x < B → ∃ p ∈ parts, p.fst ≤ x ∧ x < p.snd)
  ∧ (∀ p ∈ parts, p.snd ≤ B)
  ∧ List.Pairwise (fun p q : Nat × Nat => p.snd ≤ q.fst) parts := by
  have h1 := isParallelForPartition_ordered hp (Nat.zero_le B)
  exact ⟨h1,
    fun x hx => isOrderedPartition_cover h1 x (Nat.zero_le x) hx,
    fun p hp' => (isOrderedPartition_mem_bounds h1 p hp').2.2,
    isOrderedPartition_pairwise h1⟩

theorem partitioner_disjoint_cover_witness :
    isOrderedPartition 0 7 [(0, 3), (3, 5), (5, 7)] = true
  ∧ (∀ x, x < 7 → ∃ p ∈ [(0, 3), (3, 5), (5, 7)], p.fst ≤ x ∧ x < p.snd)
  ∧ (∀ p ∈ [(0, 3), (3, 5), (5, 7)], p.snd ≤ 7)
  ∧ List.Pairwise (fun p q : Nat × Nat => p.snd ≤ q.fst) [(0, 3), (3, 5), (5, 7)] :=
  partitioner_disjoint_cover 7 3 [(0, 3), (3, 5), (5, 7)]
    (IsParallelForPartition.split 0 7 [(0, 3)] [(3, 5), (5, 7)] (by decide)
      (IsParallelForPartition.leaf 0 3)
      (IsParallelForPartition.split 3 7 [(3, 5)] [(5, 7)] (by decide)
        (IsParallelForPartition.leaf 3 5)
        (IsParallelForPartition.leaf 5 7)))

/-- Claim C4: arena traffic for the batch buffer is matched one-to-one —
a fresh iterator destroyed without `Init()` still emits exactly one
deallocation (and no allocation), and after a completed `Init()` the
trace holds exactly one allocation, with destruction adding exactly one
deallocation. -/
theorem buffer_alloc_dealloc_matched (acc : CatalogAccessor) (oid : Nat)
    (cols : List Nat) (sb eb : Nat) :
    ((TableVectorIterator.create acc oid cols sb eb).destruct.count PoolEvent.dealloc = 1
      ∧ (TableVectorIterator.create acc oid cols sb eb).destruct.count PoolEvent.alloc = 0)
  ∧ (∀ r, (TableVectorIterator.create acc oid cols sb eb).Init = some r →
        r.fst.pool_events.count PoolEvent.alloc = 1
      ∧ r.fst.destruct.count PoolEvent.alloc = 1
      ∧ r.fst.destruct.count PoolEvent.dealloc = 1) := by
  refine ⟨⟨rfl, rfl⟩, ?_⟩
  intro r h
  obtain ⟨t, _, hr⟩ := Init_cases _ r h
  subst hr
  exact ⟨rfl, rfl, rfl⟩

theorem buffer_alloc_dealloc_matched_witness :
    sampleInitPair.fst.pool_events.count PoolEvent.alloc = 1
  ∧ sampleInitPair.fst.destruct.count PoolEvent.alloc = 1
  ∧ sampleInitPair.fst.destruct.count PoolEvent.dealloc = 1 :=
  (buffer_alloc_dealloc_matched accSample 1 [] 0 (2 ^ 32 - 1)).2
    sampleInitPair (by decide)

/-- Claim C5: when the catalog cannot resolve the table identifier, the
parallel scan entry point returns failure immediately and submits no
scan tasks. -/
theorem parallel_scan_resolution_failure (acc : CatalogAccessor) (oid : Nat)
    (h : acc.GetTable (oid % 2 ^ 32) = none) :
    TableVectorIterator.ParallelScan acc oid = (false, []) := by
  unfold TableVectorIterator.ParallelScan
  rw [h]

theorem parallel_scan_resolution_failure_witness :
    TableVectorIterator.ParallelScan accNone 5 = (false, []) :=
  parallel_scan_resolution_failure accNone 5 (by decide)

/-- Claim C6: when the table resolves, the parallel scan entry point
returns success once the fork-join round has completed — the returned
flag is `true` irrespective of the individual task outcomes carried in
the second component. -/
theorem parallel_scan_returns_success (acc : CatalogAccessor) (oid : Nat)
    (t : SqlTable) (ht : acc.GetTable (oid % 2 ^ 32) = some t) :
    (TableVectorIterator.ParallelScan acc oid).fst = true := by
  unfold TableVectorIterator.ParallelScan
  rw [ht]

theorem parallel_scan_returns_success_witness :
    (TableVectorIterator.ParallelScan accSample 1).fst = true :=
  parallel_scan_returns_success accSample 1 tblSample (by decide)

/-- Claim C7: for a table with zero matching blocks (no blocks at all, or
a start cursor equal to the end cursor), `Init()` succeeds returning
`true` and the first `Advance()` returns "no more rows"; the scan loop
performs zero successful `Advance()` calls. -/
theorem empty_range_zero_advances (acc : CatalogAccessor) (oid : Nat)
    (cols : List Nat) (sb eb : Nat) (t : SqlTable)
    (ht : acc.GetTable (oid % 2 ^ 32) = some t)
    (h0 : t.blocks.length = 0 ∨ t.beginAt (sb % 2 ^ 32) = t.endAt (eb % 2 ^ 32)) :
    ∃ r, (TableVectorIterator.create acc oid cols sb eb).Init = some (r, true)
      ∧ (r.Advance).snd = false
      ∧ ∀ fuel, scanRows fuel r = 0 := by
  have hI := Init_eq (TableVectorIterator.create acc oid cols sb eb) t ht
  have hie : t.beginAt (sb % 2 ^ 32) = t.endAt (eb % 2 ^ 32) := by
    rcases h0 with h | h
    · simp [SqlTable.beginAt, SqlTable.endAt, h]
    · exact h
  refine ⟨_, hI, ?_, ?_⟩
  · rw [Advance_at_end _ rfl hie]
  · exact scanRows_at_end _ (Advance_at_end _ rfl hie)

theorem empty_range_zero_advances_witness :
    ∃ r, (TableVectorIterator.create accSample 1 [] 0 0).Init = some (r, true)
      ∧ (r.Advance).snd = false
      ∧ ∀ fuel, scanRows fuel r = 0 :=
  empty_range_zero_advances accSample 1 [] 0 0 tblSample (by decide) (by decide)

/-- Claim C8: an iterator constructed with an empty column request list
resolves its column set at `Init()` to the table's full natural column
set in storage order, never to an empty projection (provided the table
has at least one column). -/
theorem empty_col_request_projects_all (acc : CatalogAccessor) (oid sb eb : Nat)
    (t : SqlTable) (ht : acc.GetTable (oid % 2 ^ 32) = some t) :
    ∃ r, (TableVectorIterator.create acc oid [] sb eb).Init = some (r, true)
      ∧ r.col_oids = t.GetAllColOid
      ∧ (t.GetAllColOid ≠ [] → r.col_oids ≠ []) := by
  have hI := Init_eq (TableVectorIterator.create acc oid [] sb eb) t ht
  exact ⟨_, hI, rfl, fun h => h⟩

theorem empty_col_request_projects_all_witness :
    ∃ r, (TableVectorIterator.create accSample 1 [] 0 3).Init = some (r, true)
      ∧ r.col_oids = tblSample.GetAllColOid
      ∧ (tblSample.GetAllColOid ≠ [] → r.col_oids ≠ []) :=
  empty_col_request_projects_all accSample 1 0 3 tblSample (by decide)

/-- Claim C9: the parallel scan entry point passes its 32-bit table
identifier into `ScanTask`, whose 16-bit field stores it reduced modulo
`2^16`; each per-partition iterator is therefore constructed with the
truncated identifier, which differs from the resolved one whenever the
identifier is at least `2^16`. -/
theorem scan_task_oid_truncation (acc : CatalogAccessor) (oid a b : Nat)
    (h32 : oid < 2 ^ 32) (h16 : 2 ^ 16 ≤ oid) :
    (ScanTask.make acc oid).table_id = oid % 2 ^ 16
  ∧ ((ScanTask.make acc oid).makeIter a b).table_oid = oid % 2 ^ 16
  ∧ oid % 2 ^ 16 ≠ oid := by
  have hlt : oid % 2 ^ 16 < 2 ^ 16 := Nat.mod_lt _ (by norm_num)
  refine ⟨rfl, ?_, ?_⟩
  · show oid % 2 ^ 16 % 2 ^ 32 = oid % 2 ^ 16
    exact Nat.mod_eq_of_lt (lt_of_lt_of_le hlt (by norm_num))
  · intro he
    rw [he] at hlt
    exact absurd h16 (not_le.mpr hlt)

theorem scan_task_oid_truncation_witness :
    (ScanTask.make accTruncated 65536).table_id = 65536 % 2 ^ 16
  ∧ ((ScanTask.make accTruncated 65536).makeIter 0 1).table_oid = 65536 % 2 ^ 16
  ∧ 65536 % 2 ^ 16 ≠ 65536 :=
  scan_task_oid_truncation accTruncated 65536 0 1 (by decide) (by decide)

/-- Claim C10: `Init()` returns `true` on every path on which it returns
normally (an unresolvable table only fires the fatal assertion), so the
`ScanTask` branch that silently skips a partition on a `false` from
`Init()` is unreachable. -/
theorem init_true_skip_unreachable :
    (∀ (s : TableVectorIterator) (r : TableVectorIterator × Bool),
        s.Init = some r → r.snd = true)
  ∧ (∀ (acc : CatalogAccessor) (oid a b : Nat),
        (ScanTask.make acc oid).run a b ≠ TaskOutcome.skipped) := by
  constructor
  · intro s r h
    obtain ⟨t, _, hr⟩ := Init_cases s r h
    rw [hr]
  · intro acc oid a b
    unfold ScanTask.run
    cases hI : ((ScanTask.make acc oid).makeIter a b).Init with
    | none => simp
    | some r =>
        obtain ⟨t, _, hr⟩ := Init_cases _ r hI
        rw [hr]
        simp

theorem init_true_skip_unreachable_witness : sampleInitPair.snd = true :=
  init_true_skip_unreachable.1 sampleIter sampleInitPair (by decide)

end Terrier
